import Mathlib

/-!
Shallow embedding of the STTS22H temperature-sensor driver (stts22h.c).

The driver is a poll-driven I2C transaction state machine.  C `float`
arithmetic is modelled exactly over `ℚ`; 8-bit machine integers are `Nat`
with `% 256` applied where the C code coerces to `uint8_t`.  The external
I2C transport is modelled as an oracle: each driver call receives the
transport's observable state / reply as an explicit argument, and returns
the bus request it issued (if any) as an explicit `BusAction` so that
"no bus I/O happens" is a provable statement.
-/

/-- `static const uint8_t WHOAMI = 0xA0;` -/
def WHOAMI : Nat := 0xA0

/-- `enum STTS22H_RegAddresses`, sequential from 0x01. -/
def WHOAMI_ADDR : Nat := 0x01

def TEMP_H_LIMIT_ADDR : Nat := 0x02

def TEMP_L_LIMIT_ADDR : Nat := 0x03

def CTRL_ADDR : Nat := 0x04

def STATUS_ADDR : Nat := 0x05

def TEMP_L_OUT_ADDR : Nat := 0x06

def TEMP_H_OUT_ADDR : Nat := 0x07

/-- The `STTS22H_Def` device structure.  The bus handle `i2c` is an opaque
identifier, with `0` standing for the C `NULL` pointer.  `settings` and
`status` hold the `.full` bytes of the two bit-field unions. -/
structure STTS22H_Def where
  isInit : Bool
  isConnected : Bool
  isReading : Bool
  addrSent : Bool
  regAddr : Nat
  dataSize : Nat
  settings : Nat
  status : Nat
  temp : ℚ
  devAddr : Nat
  i2c : Nat
  deriving Repr, DecidableEq

/-- Result of a non-blocking I2C request (`I2C_writeData` / `I2C_readData`):
`I2C_SUCCESS` or some transport error code, propagated verbatim. -/
inductive I2CRes where
  | success
  | error (e : Nat)
  deriving Repr, DecidableEq

/-- Driver return values (`STTS22H_Errors`); a transport error code is
returned verbatim by the C code, carried here by `I2CERR`.  `SUCCESS`
identifies the common success value shared with `I2C_SUCCESS`. -/
inductive STTS22H_Res where
  | SUCCESS
  | WRONG_DATA
  | NOT_INIT
  | BUSY
  | I2CERR (e : Nat)
  deriving Repr, DecidableEq

/-- Lift the transport's reply to the driver's return value, as the C code
does by `return result;`. -/
def liftI2C : I2CRes → STTS22H_Res
  | .success => .SUCCESS
  | .error e => .I2CERR e

/-- The bus request a driver call hands to the transport: none, a read of
`size` bytes, or a write of `bytes` (with or without a stop condition). -/
inductive BusAction where
  | none
  | readReq (devAddr : Nat) (size : Nat)
  | writeReq (devAddr : Nat) (bytes : List Nat) (stop : Bool)
  deriving Repr, DecidableEq

/-- Observable transport state consumed by one `STTS22H_update` call:
the activity probes, the failure flag of the last completed transfer, the
received-byte buffer, and the reply the transport would give to an
`I2C_readData` request issued during this call. -/
structure I2CView where
  isReading : Bool
  isWriting : Bool
  isFailed : Bool
  received : List Nat
  readReply : I2CRes
  deriving Repr, DecidableEq

/-- Result of a driver call: the returned code, the new device state and
the bus request issued (`BusAction.none` when the bus was not touched). -/
structure OpResult where
  res : STTS22H_Res
  dev : STTS22H_Def
  action : BusAction
  deriving Repr, DecidableEq

/-- Result of an `STTS22H_update` call (`void` in C): the new device state
and the bus request issued. -/
structure UpdResult where
  dev : STTS22H_Def
  action : BusAction
  deriving Repr, DecidableEq

/-- `status.fields.busy` of `STTS22H_Status_Def` (stts22h.h): the union's
bit-field struct lists `busy : 1` first, then `over_thh : 1` and
`under_thl : 1`, so on the little-endian bit-field layout the busy flag is
bit 0 (the least significant bit) of the `full` status byte. -/
def statusBusyBit (st : Nat) : Bool := st % 2 = 1

/-- Truncation of a rational toward zero, the C `(uint8_t)`/`(int)` cast
behaviour on a float value (C11 6.3.1.4). -/
def ratTrunc (q : ℚ) : Int := if 0 ≤ q then ⌊q⌋ else ⌈q⌉

/-- `calculateTemp`: combine TEMP_H_OUT / TEMP_L_OUT as a 16-bit
two's-complement integer, scale by 1/100.  Parameters are `uint8_t`, hence
the `% 256` at the boundary; `(hOut << 8) | lOut` on disjoint byte ranges
is `hOut * 256 + lOut`. -/
def calculateTemp (hOut lOut : Nat) : ℚ :=
  let raw : Int := (hOut % 256) * 256 + (lOut % 256)
  let temp : Int := if raw ≥ 2 ^ 15 then raw - 2 ^ 16 else raw
  (temp : ℚ) / 100

/-- `calculateThreshold`: `value /= 0.64f; value += 63.0f;
return (uint8_t) value;`.  The float-to-`uint8_t` cast truncates toward
zero; a value outside `[0, 256)` is undefined behaviour in C, modelled
here as a wrap via `% 256`. -/
def calculateThreshold (value : ℚ) : Nat :=
  (ratTrunc (value / (64 / 100) + 63) % 256).toNat

/-- `STTS22H_init`.  `i2c = 0` models the C `NULL` handle; `addr` is a
`uint8_t` parameter, hence `% 256` at the boundary.  (The C code also
rejects a `NULL` device pointer, which has no counterpart in this
value-level model.) -/
def STTS22H_init (stts : STTS22H_Def) (i2c : Nat) (addr : Nat) : OpResult :=
  if i2c = 0 ∨ addr % 256 = 0 then
    ⟨.WRONG_DATA, stts, .none⟩
  else
    ⟨.SUCCESS,
     { stts with i2c := i2c, devAddr := addr % 256,
                 temp := -27315 / 100, isInit := true },
     .none⟩

/-- `STTS22H_checkConnection`: one-byte address write of `WHOAMI_ADDR`
(no stop condition); on transport acceptance, mark the device busy.
`writeReply` is the transport's reply to the issued `I2C_writeData`. -/
def STTS22H_checkConnection (stts : STTS22H_Def) (writeReply : I2CRes) : OpResult :=
  if !stts.isInit then ⟨.NOT_INIT, stts, .none⟩
  else if stts.isReading then ⟨.BUSY, stts, .none⟩
  else
    let stts1 := { stts with regAddr := WHOAMI_ADDR, dataSize := 1 }
    let act := BusAction.writeReq stts1.devAddr [stts1.regAddr] false
    match writeReply with
    | .success => ⟨.SUCCESS, { stts1 with isReading := true }, act⟩
    | .error e => ⟨.I2CERR e, stts1, act⟩

/-- `STTS22H_isConnected`. -/
def STTS22H_isConnected (stts : STTS22H_Def) : Bool := stts.isConnected

/-- `STTS22H_setting`: two-byte write (CTRL_ADDR + control byte) with stop
condition; on transport acceptance, cache the written byte.  Note: no
busy check is performed. -/
def STTS22H_setting (stts : STTS22H_Def) (controlReg : Nat) (writeReply : I2CRes) : OpResult :=
  if !stts.isInit then ⟨.NOT_INIT, stts, .none⟩
  else
    let data : List Nat := [CTRL_ADDR, controlReg % 256]
    let act := BusAction.writeReq stts.devAddr data true
    match writeReply with
    | .success => ⟨.SUCCESS, { stts with settings := controlReg % 256 }, act⟩
    | .error e => ⟨.I2CERR e, stts, act⟩

/-- `STTS22H_setLimits`: range-check the bounds, then three-byte write
(TEMP_H_LIMIT_ADDR + high code + low code), both codes zero when limits
are being turned off.  Note: no busy check and no `min ≤ max` check. -/
def STTS22H_setLimits (stts : STTS22H_Def) (minTemp maxTemp : ℚ)
    (isSetLimits : Bool) (writeReply : I2CRes) : OpResult :=
  if !stts.isInit then ⟨.NOT_INIT, stts, .none⟩
  else if minTemp < -79 / 2 ∨ maxTemp > 245 / 2 then ⟨.WRONG_DATA, stts, .none⟩
  else
    let data : List Nat :=
      if isSetLimits then
        [TEMP_H_LIMIT_ADDR, calculateThreshold maxTemp, calculateThreshold minTemp]
      else
        [TEMP_H_LIMIT_ADDR, 0, 0]
    ⟨liftI2C writeReply, stts, .writeReq stts.devAddr data true⟩

/-- `STTS22H_measure`: one-byte address write of `STATUS_ADDR` (no stop
condition), pending read size 3; on transport acceptance, mark busy. -/
def STTS22H_measure (stts : STTS22H_Def) (writeReply : I2CRes) : OpResult :=
  if !stts.isInit then ⟨.NOT_INIT, stts, .none⟩
  else if stts.isReading then ⟨.BUSY, stts, .none⟩
  else
    let stts1 := { stts with regAddr := STATUS_ADDR, dataSize := 3 }
    let act := BusAction.writeReq stts1.devAddr [stts1.regAddr] false
    match writeReply with
    | .success => ⟨.SUCCESS, { stts1 with isReading := true }, act⟩
    | .error e => ⟨.I2CERR e, stts1, act⟩

/-- `STTS22H_getTemp_C`. -/
def STTS22H_getTemp_C (stts : STTS22H_Def) : ℚ := stts.temp

/-- `STTS22H_getTemp_F`: `32 + C * 9 / 5`. -/
def STTS22H_getTemp_F (stts : STTS22H_Def) : ℚ := 32 + stts.temp * 9 / 5

/-- The `switch (stts->regAddr)` decode block of `STTS22H_update`, applied
to the received bytes once a read completes without transport failure.
`stts` here is the device state after the `addrSent`/`isReading` flags were
cleared (which leaves `regAddr` untouched). -/
def STTS22H_decode (stts : STTS22H_Def) (data : List Nat) : STTS22H_Def :=
  if stts.regAddr = WHOAMI_ADDR then
    { stts with isConnected := WHOAMI = data.getD 0 0 % 256 }
  else if stts.regAddr = TEMP_H_LIMIT_ADDR then stts
  else if stts.regAddr = CTRL_ADDR then stts
  else if stts.regAddr = STATUS_ADDR then
    let stts2 := { stts with status := data.getD 0 0 % 256 }
    if !statusBusyBit (data.getD 0 0 % 256) then
      { stts2 with temp := calculateTemp (data.getD 2 0) (data.getD 1 0) }
    else stts2
  else if stts.regAddr = TEMP_L_OUT_ADDR then stts
  else stts

/-- `STTS22H_update`: the poll-driven transaction state machine.  Returns
immediately when uninitialized, when no transaction is in flight, or when
the transport is still active.  Otherwise: if the address write has been
sent (`addrSent`), the read phase has completed — end the transaction and,
unless the transport failed, decode the received bytes by `regAddr`;
if not, issue the pending `dataSize`-byte read. -/
def STTS22H_update (stts : STTS22H_Def) (bus : I2CView) : UpdResult :=
  if !stts.isInit then ⟨stts, .none⟩
  else if !stts.isReading then ⟨stts, .none⟩
  else if bus.isReading || bus.isWriting then ⟨stts, .none⟩
  else if stts.addrSent then
    let stts1 := { stts with addrSent := false, isReading := false }
    if !bus.isFailed then ⟨STTS22H_decode stts1 bus.received, .none⟩
    else ⟨stts1, .none⟩
  else
    let act := BusAction.readReq stts.devAddr stts.dataSize
    match bus.readReply with
    | .success => ⟨{ stts with addrSent := true }, act⟩
    | .error _ => ⟨{ stts with isReading := false }, act⟩

/-- Helper: the decode switch never touches `isInit`, `i2c`, `devAddr` or
`settings`. -/
theorem decode_frame (s : STTS22H_Def) (data : List Nat) :
    (STTS22H_decode s data).isInit = s.isInit ∧
    (STTS22H_decode s data).i2c = s.i2c ∧
    (STTS22H_decode s data).devAddr = s.devAddr ∧
    (STTS22H_decode s data).settings = s.settings := by
  unfold STTS22H_decode
  split_ifs <;> simp

/-- A concrete uninitialized device. -/
def devZero : STTS22H_Def :=
  ⟨false, false, false, false, 0, 0, 0, 0, 0, 0, 0⟩

/-- A concrete initialized, idle device (bus handle 1, address 0x38). -/
def devIdle : STTS22H_Def :=
  ⟨true, false, false, false, 0, 0, 0, 0, -27315 / 100, 0x38, 1⟩

/-- A concrete initialized device with a transaction in flight, the
address write not yet observed complete. -/
def devBusy : STTS22H_Def :=
  ⟨true, false, true, false, STATUS_ADDR, 3, 0, 0, -27315 / 100, 0x38, 1⟩

/-- A concrete initialized device in the read phase of a transaction. -/
def devBusySent : STTS22H_Def :=
  ⟨true, false, true, true, STATUS_ADDR, 3, 0, 0, -27315 / 100, 0x38, 1⟩

/-- A concrete idle transport view. -/
def busIdleOk : I2CView := ⟨false, false, false, [], .success⟩

/-- A concrete idle transport view reporting the last transfer failed. -/
def busIdleFailed : I2CView := ⟨false, false, true, [], .success⟩

/-- C5: on an initialized device whose busy flag (`isReading`) is set,
`STTS22H_checkConnection` and `STTS22H_measure` return `BUSY`, leave the
whole device state (in particular `isReading`, `addrSent`, `regAddr`,
`dataSize`) unchanged and issue no bus transfer. -/
theorem busy_rejects_check_and_measure (s : STTS22H_Def) (wr : I2CRes)
    (hinit : s.isInit = true) (hbusy : s.isReading = true) :
    STTS22H_checkConnection s wr = ⟨.BUSY, s, .none⟩ ∧
    STTS22H_measure s wr = ⟨.BUSY, s, .none⟩ := by
  constructor <;> simp [STTS22H_checkConnection, STTS22H_measure, hinit, hbusy]

/-- C5 witness: concrete busy device. -/
theorem busy_rejects_check_and_measure_witness :
    STTS22H_checkConnection devBusy .success = ⟨.BUSY, devBusy, .none⟩ ∧
    STTS22H_measure devBusy .success = ⟨.BUSY, devBusy, .none⟩ :=
  busy_rejects_check_and_measure devBusy .success rfl rfl

/-- C7: every operation invoked on an uninitialized device returns
`NOT_INIT`, leaves the device unchanged and issues no bus transfer;
`STTS22H_update` on an uninitialized device does nothing and issues no
bus transfer. -/
theorem notinit_rejects_all (s : STTS22H_Def) (cr : Nat) (mn mx : ℚ)
    (lim : Bool) (wr : I2CRes) (bus : I2CView) (hinit : s.isInit = false) :
    STTS22H_checkConnection s wr = ⟨.NOT_INIT, s, .none⟩ ∧
    STTS22H_setting s cr wr = ⟨.NOT_INIT, s, .none⟩ ∧
    STTS22H_setLimits s mn mx lim wr = ⟨.NOT_INIT, s, .none⟩ ∧
    STTS22H_measure s wr = ⟨.NOT_INIT, s, .none⟩ ∧
    STTS22H_update s bus = ⟨s, .none⟩ := by
  refine ⟨?_, ?_, ?_, ?_, ?_⟩ <;>
    simp [STTS22H_checkConnection, STTS22H_setting, STTS22H_setLimits,
          STTS22H_measure, STTS22H_update, hinit]

/-- C7 witness: concrete uninitialized device. -/
theorem notinit_rejects_all_witness :
    STTS22H_checkConnection devZero .success = ⟨.NOT_INIT, devZero, .none⟩ ∧
    STTS22H_setting devZero 0x3C .success = ⟨.NOT_INIT, devZero, .none⟩ ∧
    STTS22H_setLimits devZero 0 10 true .success = ⟨.NOT_INIT, devZero, .none⟩ ∧
    STTS22H_measure devZero .success = ⟨.NOT_INIT, devZero, .none⟩ ∧
    STTS22H_update devZero busIdleOk = ⟨devZero, .none⟩ :=
  notinit_rejects_all devZero 0x3C 0 10 true .success busIdleOk rfl

/-- C8: `STTS22H_init` rejects a null handle or a zero address with
`WRONG_DATA` and leaves the device untouched; otherwise it stores the
handle and address, resets the cached temperature to the absolute-zero
sentinel and marks the device initialized.  No bus transfer is issued in
either case. -/
theorem init_spec (s : STTS22H_Def) (i2c addr : Nat) :
    (i2c = 0 ∨ addr % 256 = 0 →
      STTS22H_init s i2c addr = ⟨.WRONG_DATA, s, .none⟩) ∧
    (i2c ≠ 0 → addr % 256 ≠ 0 →
      STTS22H_init s i2c addr =
        ⟨.SUCCESS,
         { s with i2c := i2c, devAddr := addr % 256,
                  temp := -27315 / 100, isInit := true },
         .none⟩) := by
  constructor
  · intro h; simp [STTS22H_init, h]
  · intro h1 h2; simp [STTS22H_init, h1, h2]

/-- C8 witness: null handle rejected; valid arguments accepted. -/
theorem init_spec_witness :
    STTS22H_init devZero 0 0x38 = ⟨.WRONG_DATA, devZero, .none⟩ ∧
    STTS22H_init devZero 1 0x38 =
      ⟨.SUCCESS,
       { devZero with i2c := 1, devAddr := 0x38,
                      temp := -27315 / 100, isInit := true },
       .none⟩ :=
  ⟨(init_spec devZero 0 0x38).1 (Or.inl rfl),
   (init_spec devZero 1 0x38).2 (by decide) (by decide)⟩

/-- C9: `STTS22H_update` never modifies the initialized flag, the stored
bus handle, the stored device address or the cached control settings,
whatever the device state and transport outcome. -/
theorem update_frame (s : STTS22H_Def) (bus : I2CView) :
    (STTS22H_update s bus).dev.isInit = s.isInit ∧
    (STTS22H_update s bus).dev.i2c = s.i2c ∧
    (STTS22H_update s bus).dev.devAddr = s.devAddr ∧
    (STTS22H_update s bus).dev.settings = s.settings := by
  unfold STTS22H_update
  obtain ⟨h1, h2, h3, h4⟩ :=
    decode_frame { s with addrSent := false, isReading := false } bus.received
  cases hrr : bus.readReply <;> split_ifs <;> simp_all

/-- C4: a transaction whose read phase completes with the transport
reporting failure leaves `temp`, `isConnected` and `status` exactly as
they were before the transaction started, and returns the device to
non-busy with no decoding: the triggering calls and the read-issue step
preserve those three fields, and the failed completion step clears the
`isReading`/`addrSent` flags while touching nothing else. -/
theorem readFailure_preservesCache :
    (∀ s wr,
      (STTS22H_measure s wr).dev.temp = s.temp ∧
      (STTS22H_measure s wr).dev.isConnected = s.isConnected ∧
      (STTS22H_measure s wr).dev.status = s.status ∧
      (STTS22H_checkConnection s wr).dev.temp = s.temp ∧
      (STTS22H_checkConnection s wr).dev.isConnected = s.isConnected ∧
      (STTS22H_checkConnection s wr).dev.status = s.status) ∧
    (∀ s bus, s.addrSent = false →
      (STTS22H_update s bus).dev.temp = s.temp ∧
      (STTS22H_update s bus).dev.isConnected = s.isConnected ∧
      (STTS22H_update s bus).dev.status = s.status) ∧
    (∀ s bus, s.isInit = true → s.isReading = true → s.addrSent = true →
      bus.isReading = false → bus.isWriting = false → bus.isFailed = true →
      STTS22H_update s bus = ⟨{ s with addrSent := false, isReading := false }, .none⟩) := by
  refine ⟨?_, ?_, ?_⟩
  · intro s wr
    unfold STTS22H_measure STTS22H_checkConnection
    cases wr <;> split_ifs <;> simp
  · intro s bus hsent
    unfold STTS22H_update
    rw [hsent]
    cases hrr : bus.readReply <;> split_ifs <;> simp_all
  · intro s bus h1 h2 h3 h4 h5 h6
    simp [STTS22H_update, h1, h2, h3, h4, h5, h6]

/-- C4 witness: concrete failed read completion. -/
theorem readFailure_preservesCache_witness :
    (STTS22H_measure devIdle .success).dev.temp = devIdle.temp ∧
    STTS22H_update devBusySent busIdleFailed =
      ⟨{ devBusySent with addrSent := false, isReading := false }, .none⟩ :=
  ⟨(readFailure_preservesCache.1 devIdle .success).1,
   readFailure_preservesCache.2.2 devBusySent busIdleFailed rfl rfl rfl rfl rfl rfl⟩

/-- C2 counterexample: on a concrete initialized device with a transaction
in flight (`isReading = true`), `STTS22H_setting` and `STTS22H_setLimits`
do not fail with `BUSY`: both return `SUCCESS` and issue a bus write, so
the claim that they reject overlap with the Busy error is false. -/
theorem setting_setLimits_busyCheck_counterexample :
    devBusy.isInit = true ∧ devBusy.isReading = true ∧
    STTS22H_setting devBusy 0x3C .success =
      ⟨.SUCCESS, { devBusy with settings := 0x3C },
       .writeReq devBusy.devAddr [CTRL_ADDR, 0x3C] true⟩ ∧
    STTS22H_setLimits devBusy 0 10 true .success =
      ⟨.SUCCESS, devBusy,
       .writeReq devBusy.devAddr
         [TEMP_H_LIMIT_ADDR, calculateThreshold 10, calculateThreshold 0] true⟩ ∧
    (.SUCCESS : STTS22H_Res) ≠ .BUSY := by
  refine ⟨rfl, rfl, ?_, ?_, by decide⟩
  · simp [STTS22H_setting, devBusy, liftI2C]
  · norm_num [STTS22H_setLimits, devBusy, liftI2C]

/-- C2 (amended): `STTS22H_setting` and `STTS22H_setLimits` perform no
busy check: on an initialized device with `isReading = true` they issue
their bus write anyway and return the transport's result (never `BUSY`),
while leaving the in-flight transaction's bookkeeping (`isReading`,
`addrSent`, `regAddr`, `dataSize`) unchanged. -/
theorem setting_setLimits_ignoreBusy (s : STTS22H_Def) (cr : Nat)
    (mn mx : ℚ) (lim : Bool) (wr : I2CRes)
    (hinit : s.isInit = true) (hbusy : s.isReading = true) :
    ((STTS22H_setting s cr wr).res = liftI2C wr ∧
     (STTS22H_setting s cr wr).res ≠ .BUSY ∧
     (STTS22H_setting s cr wr).action = .writeReq s.devAddr [CTRL_ADDR, cr % 256] true ∧
     (STTS22H_setting s cr wr).dev.isReading = s.isReading ∧
     (STTS22H_setting s cr wr).dev.addrSent = s.addrSent ∧
     (STTS22H_setting s cr wr).dev.regAddr = s.regAddr ∧
     (STTS22H_setting s cr wr).dev.dataSize = s.dataSize) ∧
    (-79 / 2 ≤ mn → mx ≤ 245 / 2 →
      (STTS22H_setLimits s mn mx lim wr).res = liftI2C wr ∧
      (STTS22H_setLimits s mn mx lim wr).res ≠ .BUSY ∧
      (STTS22H_setLimits s mn mx lim wr).dev = s ∧
      (STTS22H_setLimits s mn mx lim wr).action =
        .writeReq s.devAddr
          (if lim then [TEMP_H_LIMIT_ADDR, calculateThreshold mx, calculateThreshold mn]
           else [TEMP_H_LIMIT_ADDR, 0, 0]) true) := by
  constructor
  · cases wr <;> simp [STTS22H_setting, liftI2C, hinit]
  · intro h1 h2
    have hnot : ¬(mn < -79 / 2 ∨ mx > 245 / 2) := by
      push_neg; exact ⟨h1, h2⟩
    cases wr <;> simp [STTS22H_setLimits, liftI2C, hinit, hnot]

/-- C2 amended witness: concrete busy device. -/
theorem setting_setLimits_ignoreBusy_witness :
    (STTS22H_setting devBusy 0x3C .success).res = liftI2C .success ∧
    (STTS22H_setLimits devBusy 0 10 true .success).dev = devBusy :=
  ⟨(setting_setLimits_ignoreBusy devBusy 0x3C 0 10 true .success rfl rfl).1.1,
   ((setting_setLimits_ignoreBusy devBusy 0x3C 0 10 true .success rfl rfl).2
      (by norm_num) (by norm_num)).2.2.1⟩

/-- C10: with both bounds inside `[-39.5, 122.5]`, `STTS22H_setLimits`
with limits enabled on an initialized device accepts the pair even when
`minTemp > maxTemp`: no `WRONG_DATA` is returned and the three-byte
threshold write is issued — the range check never compares the two bounds
against each other. -/
theorem setLimits_accepts_inverted_bounds (s : STTS22H_Def) (mn mx : ℚ) (wr : I2CRes)
    (hinit : s.isInit = true)
    (hmn1 : -79 / 2 ≤ mn) (hmn2 : mn ≤ 245 / 2)
    (hmx1 : -79 / 2 ≤ mx) (hmx2 : mx ≤ 245 / 2)
    (hinv : mx < mn) :
    (STTS22H_setLimits s mn mx true wr).res ≠ .WRONG_DATA ∧
    (STTS22H_setLimits s mn mx true wr).action =
      .writeReq s.devAddr
        [TEMP_H_LIMIT_ADDR, calculateThreshold mx, calculateThreshold mn] true := by
  have hnot : ¬(mn < -79 / 2 ∨ mx > 245 / 2) := by
    push_neg; exact ⟨hmn1, hmx2⟩
  cases wr <;> simp [STTS22H_setLimits, liftI2C, hinit, hnot]

/-- C10 witness: `minTemp = 50 > 10 = maxTemp` is accepted. -/
theorem setLimits_accepts_inverted_bounds_witness :
    (STTS22H_setLimits devIdle 50 10 true .success).res ≠ .WRONG_DATA ∧
    (STTS22H_setLimits devIdle 50 10 true .success).action =
      .writeReq devIdle.devAddr
        [TEMP_H_LIMIT_ADDR, calculateThreshold 10, calculateThreshold 50] true :=
  setLimits_accepts_inverted_bounds devIdle 50 10 .success rfl
    (by norm_num) (by norm_num) (by norm_num) (by norm_num) (by norm_num)

/-- C3: completing a status-register transaction with the transport idle
and not failed always caches `status = byte0`; when the busy bit of that
byte is clear, `temp` becomes `(byte2 <<< 8) ||| byte1` read as a 16-bit
two's-complement integer divided by 100; when the busy bit is set, `temp`
is unchanged. -/
theorem update_statusDecode (s : STTS22H_Def) (bus : I2CView) (b0 b1 b2 : Nat)
    (hinit : s.isInit = true) (hbusy : s.isReading = true) (hsent : s.addrSent = true)
    (hreg : s.regAddr = STATUS_ADDR)
    (hbr : bus.isReading = false) (hbw : bus.isWriting = false) (hbf : bus.isFailed = false)
    (hrecv : bus.received = [b0, b1, b2])
    (h0 : b0 < 256) (h1 : b1 < 256) (h2 : b2 < 256) :
    (STTS22H_update s bus).dev.status = b0 ∧
    (statusBusyBit b0 = false →
      (STTS22H_update s bus).dev.temp =
        ((if 32768 ≤ (b2 : Int) * 256 + (b1 : Int)
          then (b2 : Int) * 256 + (b1 : Int) - 65536
          else (b2 : Int) * 256 + (b1 : Int) : Int) : ℚ) / 100) ∧
    (statusBusyBit b0 = true → (STTS22H_update s bus).dev.temp = s.temp) := by
  have hupd : STTS22H_update s bus =
      ⟨STTS22H_decode { s with addrSent := false, isReading := false } bus.received, .none⟩ := by
    simp [STTS22H_update, hinit, hbusy, hsent, hbr, hbw, hbf]
  rw [hupd, hrecv]
  simp only [STTS22H_decode, hreg]
  norm_num [STATUS_ADDR, WHOAMI_ADDR, TEMP_H_LIMIT_ADDR, CTRL_ADDR, TEMP_L_OUT_ADDR]
  rw [Nat.mod_eq_of_lt h0]
  refine ⟨?_, ?_, ?_⟩
  · split_ifs <;> rfl
  · intro hb
    rw [if_pos (by simp [hb])]
    simp only [calculateTemp, List.getD, List.get?]
    have e1 : (b1 : Int) % 256 = b1 :=
      Int.emod_eq_of_lt (Int.ofNat_nonneg b1) (by exact_mod_cast h1)
    have e2 : (b2 : Int) % 256 = b2 :=
      Int.emod_eq_of_lt (Int.ofNat_nonneg b2) (by exact_mod_cast h2)
    rw [e1, e2]
    norm_num [ge_iff_le]
  · intro hb
    rw [if_neg (by simp [hb])]

/-- A concrete idle transport view carrying a completed status read:
status byte clear, temperature bytes 0x90 (low) and 0x01 (high). -/
def busRecvOk : I2CView := ⟨false, false, false, [0x00, 0x90, 0x01], .success⟩

/-- C3 witness: concrete completed status read. -/
theorem update_statusDecode_witness :
    (STTS22H_update devBusySent busRecvOk).dev.status = 0 ∧
    (STTS22H_update devBusySent busRecvOk).dev.temp =
      ((if 32768 ≤ (1 : Int) * 256 + (144 : Int)
        then (1 : Int) * 256 + (144 : Int) - 65536
        else (1 : Int) * 256 + (144 : Int) : Int) : ℚ) / 100 :=
  ⟨(update_statusDecode devBusySent busRecvOk 0 144 1 rfl rfl rfl rfl rfl rfl rfl rfl
      (by decide) (by decide) (by decide)).1,
   (update_statusDecode devBusySent busRecvOk 0 144 1 rfl rfl rfl rfl rfl rfl rfl rfl
      (by decide) (by decide) (by decide)).2.1 rfl⟩

/-- Rounding to the nearest integer (half up): the `round` in the spec's
threshold formula `round(value / 0.64 + 63)`.  This follows the spec's
words, not the code, for comparison against `calculateThreshold`. -/
def ratRound (q : ℚ) : Int := ⌊q + 1 / 2⌋

/-- The spec's stated threshold conversion, for comparison against the
code's `calculateThreshold`: `code = round(value / 0.64 + 63)`, truncated
to an unsigned byte. -/
def calculateThreshold_spec (value : ℚ) : Nat :=
  (ratRound (value / (64 / 100) + 63) % 256).toNat

/-- C6 counterexample: at `value = 0.5` the code's conversion yields 63
(truncation of 63.78125) while the claimed `round(value / 0.64 + 63)`
yields 64, so the claimed formula does not describe `calculateThreshold`. -/
theorem calculateThreshold_round_counterexample :
    calculateThreshold (1 / 2) = 63 ∧
    calculateThreshold_spec (1 / 2) = 64 ∧
    calculateThreshold (1 / 2) ≠ calculateThreshold_spec (1 / 2) := by
  have h1 : calculateThreshold (1 / 2) = 63 := by
    have e : (1 / 2 : ℚ) / (64 / 100) + 63 = 2041 / 32 := by norm_num
    rw [calculateThreshold, e, ratTrunc, if_pos (by norm_num)]
    norm_num
    decide
  have h2 : calculateThreshold_spec (1 / 2) = 64 := by
    have e : (1 / 2 : ℚ) / (64 / 100) + 63 = 2041 / 32 := by norm_num
    rw [calculateThreshold_spec, e, ratRound]
    norm_num
    decide
  exact ⟨h1, h2, by rw [h1, h2]; decide⟩

/-- C6 (amended): `calculateThreshold` converts a bound via
`code = trunc(value / 0.64 + 63)` (truncation toward zero, the C
float-to-`uint8_t` cast), not `round`; on the documented range
`[-39.5, 122.5]` the pre-cast value stays within `[0, 255]` so the byte
cast never wraps, and `calculateThreshold 0 = 63`. -/
theorem calculateThreshold_truncates :
    (∀ v : ℚ, -79 / 2 ≤ v → v ≤ 245 / 2 →
      0 ≤ ratTrunc (v / (64 / 100) + 63) ∧
      ratTrunc (v / (64 / 100) + 63) ≤ 255 ∧
      (calculateThreshold v : Int) = ratTrunc (v / (64 / 100) + 63)) ∧
    calculateThreshold 0 = 63 := by
  constructor
  · intro v hlo hhi
    have e : v / (64 / 100) = v * (25 / 16) := by
      rw [div_eq_mul_inv]; norm_num
    have hq0 : (0 : ℚ) ≤ v / (64 / 100) + 63 := by rw [e]; linarith
    have hqlt : v / (64 / 100) + 63 < 255 := by rw [e]; linarith
    have ht : ratTrunc (v / (64 / 100) + 63) = ⌊v / (64 / 100) + 63⌋ := by
      rw [ratTrunc, if_pos hq0]
    have h0 : 0 ≤ ⌊v / (64 / 100) + 63⌋ := Int.floor_nonneg.mpr hq0
    have h255 : ⌊v / (64 / 100) + 63⌋ < 256 := by
      rw [Int.floor_lt]
      exact lt_trans hqlt (by norm_num)
    refine ⟨?_, ?_, ?_⟩
    · rw [ht]; exact h0
    · rw [ht]; omega
    · rw [calculateThreshold, ht, Int.emod_eq_of_lt h0 h255,
          Int.toNat_of_nonneg h0]
  · have e : (0 : ℚ) / (64 / 100) + 63 = 63 := by norm_num
    rw [calculateThreshold, e, ratTrunc, if_pos (by norm_num)]
    norm_num
    decide

/-- C6 amended witness: the upper bound 122.5 stays in the byte range. -/
theorem calculateThreshold_truncates_witness :
    (0 ≤ ratTrunc ((245 / 2 : ℚ) / (64 / 100) + 63) ∧
     ratTrunc ((245 / 2 : ℚ) / (64 / 100) + 63) ≤ 255 ∧
     (calculateThreshold (245 / 2 : ℚ) : Int) =
       ratTrunc ((245 / 2 : ℚ) / (64 / 100) + 63)) ∧
    calculateThreshold 0 = 63 :=
  ⟨calculateThreshold_truncates.1 (245 / 2) (by norm_num) (by norm_num),
   calculateThreshold_truncates.2⟩

/-- C1: on an initialized idle device, `STTS22H_measure` issues the
one-byte status-register address write and sets busy; the first effective
`STTS22H_update` (transport idle, not failed) issues the 3-byte read
request; the second effective update, receiving `[0x00, 0x90, 0x01]`,
caches the decoded temperature so `STTS22H_getTemp_C` returns 4 °C, and
the device returns to idle. -/
theorem measure_update_endToEnd (s : STTS22H_Def) (r1 : List Nat)
    (hinit : s.isInit = true) (hidle : s.isReading = false) (hsent : s.addrSent = false) :
    (STTS22H_measure s .success).res = .SUCCESS ∧
    (STTS22H_measure s .success).dev.isReading = true ∧
    (STTS22H_measure s .success).action = .writeReq s.devAddr [STATUS_ADDR] false ∧
    (STTS22H_update (STTS22H_measure s .success).dev
        ⟨false, false, false, r1, .success⟩).action = .readReq s.devAddr 3 ∧
    STTS22H_getTemp_C
      (STTS22H_update
        (STTS22H_update (STTS22H_measure s .success).dev
          ⟨false, false, false, r1, .success⟩).dev
        ⟨false, false, false, [0x00, 0x90, 0x01], .success⟩).dev = 4 ∧
    (STTS22H_update
        (STTS22H_update (STTS22H_measure s .success).dev
          ⟨false, false, false, r1, .success⟩).dev
        ⟨false, false, false, [0x00, 0x90, 0x01], .success⟩).dev.isReading = false := by
  have hm : STTS22H_measure s .success =
      ⟨.SUCCESS, { s with regAddr := STATUS_ADDR, dataSize := 3, isReading := true },
       .writeReq s.devAddr [STATUS_ADDR] false⟩ := by
    simp [STTS22H_measure, hinit, hidle]
  have hu1 : STTS22H_update
      { s with regAddr := STATUS_ADDR, dataSize := 3, isReading := true }
      ⟨false, false, false, r1, .success⟩ =
      ⟨{ s with regAddr := STATUS_ADDR, dataSize := 3, isReading := true, addrSent := true },
       .readReq s.devAddr 3⟩ := by
    simp [STTS22H_update, hinit, hsent]
  have hu2 : STTS22H_update
      { s with regAddr := STATUS_ADDR, dataSize := 3, isReading := true, addrSent := true }
      ⟨false, false, false, [0x00, 0x90, 0x01], .success⟩ =
      ⟨{ s with regAddr := STATUS_ADDR, dataSize := 3, isReading := false, addrSent := false,
                status := 0, temp := calculateTemp 0x01 0x90 }, .none⟩ := by
    simp [STTS22H_update, STTS22H_decode, hinit, STATUS_ADDR, WHOAMI_ADDR,
          TEMP_H_LIMIT_ADDR, CTRL_ADDR, TEMP_L_OUT_ADDR, statusBusyBit]
  have htemp : calculateTemp 0x01 0x90 = 4 := by
    rw [calculateTemp]
    norm_num
  rw [hm]
  refine ⟨rfl, rfl, rfl, ?_, ?_, ?_⟩
  · rw [hu1]
  · rw [hu1, hu2, STTS22H_getTemp_C, htemp]
  · rw [hu1, hu2]

/-- C1 witness: the concrete end-to-end run on `devIdle`. -/
theorem measure_update_endToEnd_witness :
    (STTS22H_measure devIdle .success).res = .SUCCESS ∧
    STTS22H_getTemp_C
      (STTS22H_update
        (STTS22H_update (STTS22H_measure devIdle .success).dev busIdleOk).dev
        busRecvOk).dev = 4 :=
  ⟨(measure_update_endToEnd devIdle [] rfl rfl rfl).1,
   (measure_update_endToEnd devIdle [] rfl rfl rfl).2.2.2.2.1⟩
